import Mathlib

/-!
Verification of the Edwisely concept-clarifier backend (`app.py`).

The backend is a single Flask endpoint `/clarify` that validates an
incoming JSON body, composes a system prompt and a user message, issues
one call to an external chat-completion service, and maps the result
(or any failure of the call) to a JSON response.

The embedding below is shallow:
* JSON values (and the Python values Flask's `request.get_json()`
  produces from them) are modelled by the inductive type `Json`;
  Python truthiness of such values is `truthy`, and Python string
  interpolation of such values (`f"...{x}..."`) is `pyStr`.
* The external completion service is a parameter
  `svc : CompletionRequest → Except String String`: `Except.ok c` is a
  successful call whose extracted message content is `c`, and
  `Except.error e` is any exception raised during the call or while
  extracting the content (network, auth, quota, malformed payload),
  carrying the exception's text.
* `clarify_concept` and `clarify` return, along with their value, the
  list of completion-service requests issued and the list of log lines
  printed, so that "exactly one call" and "logged" are statable.
-/

/-- A JSON value, as parsed by Flask's `request.get_json()` into a
Python value.  Numbers are modelled as integers (no claim involves
non-integer numbers).  An `obj` is the resulting Python dict, keys
assumed distinct. -/
inductive Json where
  | null : Json
  | bool (b : Bool) : Json
  | num (n : Int) : Json
  | str (s : String) : Json
  | arr (elems : List Json) : Json
  | obj (fields : List (String × Json)) : Json
deriving Repr

/-- Python truthiness of a parsed JSON value (`if x:` / `if not x:`):
`None`, `False`, `0`, `""`, `[]` and the empty dict are falsy. -/
def truthy : Json → Bool
  | Json.null => false
  | Json.bool b => b
  | Json.num n => n != 0
  | Json.str s => s != ""
  | Json.arr l => !l.isEmpty
  | Json.obj l => !l.isEmpty

/-- Whether the parsed body is a Python dict (a JSON object).  Anything
else has no `.get` attribute in Python. -/
def isObj : Json → Bool
  | Json.obj _ => true
  | _ => false

/-- Python `dict.get(key)`: the value for `key`, or `None` when the key
is absent. -/
def dictGet : List (String × Json) → String → Json
  | [], _ => Json.null
  | (k, v) :: rest, key => if k = key then v else dictGet rest key

/-- Python `dict.get(key, default)`: the value for `key` (even when that
value is `None`), or `default` when the key is absent. -/
def dictGetD : List (String × Json) → String → Json → Json
  | [], _, d => d
  | (k, v) :: rest, key, d => if k = key then v else dictGetD rest key d

mutual
/-- Python `repr` of a parsed JSON value (quote escaping inside string
reprs is not modelled; no claim exercises it). -/
def pyRepr : Json → String
  | Json.null => "None"
  | Json.bool b => if b then "True" else "False"
  | Json.num n => toString n
  | Json.str s => "'" ++ s ++ "'"
  | Json.arr l => "[" ++ pyReprSep l ++ "]"
  | Json.obj l => "\x7b" ++ pyReprFieldsSep l ++ "\x7d"

/-- Comma-separated `repr`s of list elements. -/
def pyReprSep : List Json → String
  | [] => ""
  | [x] => pyRepr x
  | x :: xs => pyRepr x ++ ", " ++ pyReprSep xs

/-- Comma-separated `repr`s of dict entries. -/
def pyReprFieldsSep : List (String × Json) → String
  | [] => ""
  | [(k, v)] => "'" ++ k ++ "': " ++ pyRepr v
  | (k, v) :: xs => "'" ++ k ++ "': " ++ pyRepr v ++ ", " ++ pyReprFieldsSep xs
end

/-- Python `str` of a parsed JSON value, as used by f-string
interpolation: a string interpolates as itself, everything else as its
`repr` (for `None`, booleans and integers `str` and `repr` agree). -/
def pyStr : Json → String
  | Json.str s => s
  | j => pyRepr j

/-- One entry of the chat-style message list sent to the completion
service. -/
structure ChatMessage where
  role : String
  content : String
deriving Repr

/-- The arguments of one `client.chat.completions.create` call. -/
structure CompletionRequest where
  model : String
  messages : List ChatMessage
  temperature : ℚ
  max_tokens : ℕ
deriving Repr

/-- The fixed system prompt of `clarify_concept` (app.py lines 25-33). -/
def system_prompt : String :=
  "You are an AI assistant for engineering students on the Edwisely platform. " ++
  "Your goal is to provide clear, concise, and accurate explanations of engineering concepts. " ++
  "Always tailor your explanation for an engineering student, assuming they have some foundational knowledge " ++
  "but need clarity on a specific topic. " ++
  "Where possible, include a simple, relevant example or analogy to aid understanding. " ++
  "Conclude with a short, thought-provoking question related to the concept " ++
  "to encourage deeper understanding and critical thinking."

/-- The user message composed by `clarify_concept` (app.py lines 36-38):
the query instruction, with the context clause appended exactly when the
context value is truthy. -/
def user_message (concept_query subject_context : Json) : String :=
  let m := "Explain the concept: '" ++ pyStr concept_query ++ "'."
  if truthy subject_context then
    m ++ " Please explain it in the context of '" ++ pyStr subject_context ++ "'."
  else m

/-- The completion-service request built by `clarify_concept`
(app.py lines 42-51): fixed model, two messages, fixed temperature and
token limit. -/
def completion_request (concept_query subject_context : Json) : CompletionRequest :=
  { model := "gpt-3.5-turbo"
  , messages :=
      [ { role := "system", content := system_prompt }
      , { role := "user", content := user_message concept_query subject_context } ]
  , temperature := 7 / 10
  , max_tokens := 300 }

/-- The fallback apology returned when the completion call raises
(app.py line 58). -/
def fallback_message : String :=
  "I apologize, but I couldn't generate an explanation at this moment. Please try again later."

/-- A character Python's `str.strip()` removes: ASCII whitespace
(other Unicode whitespace is not modelled; no claim exercises it). -/
def isPyWhitespace (c : Char) : Bool :=
  c = ' ' || c = '\t' || c = '\n' || c = '\r' || c = '\x0b' || c = '\x0c'

/-- Python `str.strip()`: the string with leading and trailing
whitespace characters removed. -/
def pyStrip (s : String) : String :=
  String.mk (((s.data.dropWhile isPyWhitespace).reverse.dropWhile isPyWhitespace).reverse)

/-- The value of `clarify_concept` together with the completion-service
calls it issued and the log lines it printed. -/
structure CallResult where
  result : String
  calls : List CompletionRequest
  log : List String
deriving Repr

/-- `clarify_concept(concept_query, subject_context)` (app.py lines
20-58), with the completion service abstracted as `svc`.  On a
successful call it returns the content stripped of leading and trailing
whitespace (Python `str.strip()`, modelled by `pyStrip`); on any
exception it logs the error and returns the fallback apology. -/
def clarify_concept (svc : CompletionRequest → Except String String)
    (concept_query subject_context : Json) : CallResult :=
  let req := completion_request concept_query subject_context
  match svc req with
  | Except.ok content =>
      { result := pyStrip content, calls := [req], log := [] }
  | Except.error e =>
      { result := fallback_message
      , calls := [req]
      , log := ["Error calling OpenAI API: " ++ e] }

/-- Outcome of the `/clarify` handler: an HTTP response (status, JSON
body, completion calls issued, log lines), or an unhandled Python
exception (as raised by `data.get` when the parsed body is not a
dict). -/
inductive HandlerResult where
  | response (status : ℕ) (body : Json)
      (calls : List CompletionRequest) (log : List String) : HandlerResult
  | exception (msg : String) : HandlerResult
deriving Repr

/-- The `/clarify` handler `clarify()` (app.py lines 68-88) applied to
the parsed request body `data`.  `jsonify(x), 400` is a 400 response and
a bare `jsonify(x)` a 200 response. -/
def clarify (svc : CompletionRequest → Except String String)
    (data : Json) : HandlerResult :=
  match data with
  | Json.obj fields =>
      let concept_query := dictGet fields "query"
      let subject_context := dictGetD fields "context" (Json.str "")
      if !truthy concept_query then
        HandlerResult.response 400
          (Json.obj [("error", Json.str "Concept query is required.")]) [] []
      else
        let r := clarify_concept svc concept_query subject_context
        HandlerResult.response 200
          (Json.obj [("explanation", Json.str r.result)]) r.calls r.log
  | _ => HandlerResult.exception "AttributeError"

/-- The startup credential check (app.py lines 11-16): `os.getenv`
yields the environment's value or `None`, and a missing or empty value
raises `ValueError` with the fixed message before the app is created. -/
def startup_error_message : String :=
  "OPENAI_API_KEY environment variable not set. " ++
  "Please create a .env file in the same directory as app.py " ++
  "and add OPENAI_API_KEY=YOUR_API_KEY_HERE to it."

/-- Module initialization (app.py lines 11-18): read `OPENAI_API_KEY`
from the environment; if it is absent or falsy (empty), raise
`ValueError` — the process never reaches serving.  Otherwise the key is
the one used to build the client. -/
def startup (env : String → Option String) : Except String String :=
  match env "OPENAI_API_KEY" with
  | none => Except.error startup_error_message
  | some k => if k = "" then Except.error startup_error_message else Except.ok k

/-! ## Concrete completion services used for witnesses -/

/-- A completion service that always succeeds with content `c`. -/
def svcConst (c : String) : CompletionRequest → Except String String :=
  fun _ => Except.ok c

/-- A completion service that always raises, with exception text `e`. -/
def svcRaise (e : String) : CompletionRequest → Except String String :=
  fun _ => Except.error e

/-- `true` when the dict holds the key `k`. -/
def hasKey (fields : List (String × Json)) (k : String) : Bool :=
  fields.any (fun p => p.1 == k)

/-- `true` when the handler produced a response whose JSON body holds
exactly one of the keys `explanation` and `error`. -/
def one_of_explanation_error : HandlerResult → Bool
  | HandlerResult.response _ (Json.obj fields) _ _ =>
      hasKey fields "explanation" != hasKey fields "error"
  | _ => false

/-! ## Theorems -/

/-- C2: for a JSON-object body whose `query` is missing (so `dict.get`
yields `None`) or is the empty string, the handler returns status 400
with body exactly `\x7b"error": "Concept query is required."\x7d` and
issues zero completion-service calls. -/
theorem clarify_invalid_query_400
    (svc : CompletionRequest → Except String String)
    (fields : List (String × Json))
    (h : dictGet fields "query" = Json.null ∨ dictGet fields "query" = Json.str "") :
    clarify svc (Json.obj fields) =
      HandlerResult.response 400
        (Json.obj [("error", Json.str "Concept query is required.")]) [] [] := by
  rcases h with h | h <;> simp [clarify, h, truthy]

/-- Witness for C2: the empty body (query absent) yields the 400
response with no completion calls. -/
theorem clarify_invalid_query_400_witness :
    clarify (svcConst "ok") (Json.obj []) =
      HandlerResult.response 400
        (Json.obj [("error", Json.str "Concept query is required.")]) [] [] :=
  clarify_invalid_query_400 (svcConst "ok") [] (Or.inl rfl)

/-- C3: for a non-empty string `query`, when the completion-service
call raises (for any reason, with any exception text `e`), the handler
still returns status 200 with `explanation` equal to the fixed fallback
apology string, and the failure is recorded in the log; no non-200
status is produced. -/
theorem clarify_upstream_failure_fallback
    (svc : CompletionRequest → Except String String)
    (q : String) (ctx : Json) (e : String)
    (hq : q ≠ "")
    (hsvc : svc (completion_request (Json.str q) ctx) = Except.error e) :
    clarify svc (Json.obj [("query", Json.str q), ("context", ctx)]) =
      HandlerResult.response 200
        (Json.obj [("explanation", Json.str fallback_message)])
        [completion_request (Json.str q) ctx]
        ["Error calling OpenAI API: " ++ e] := by
  have ht : truthy (Json.str q) = true := by simp [truthy, hq]
  simp [clarify, dictGet, dictGetD, clarify_concept, hsvc, ht]

/-- Witness for C3: a service that raises with text "boom" on the query
"Mutex" yields the 200 fallback response with the failure logged. -/
theorem clarify_upstream_failure_fallback_witness :
    clarify (svcRaise "boom")
        (Json.obj [("query", Json.str "Mutex"), ("context", Json.str "")]) =
      HandlerResult.response 200
        (Json.obj [("explanation", Json.str fallback_message)])
        [completion_request (Json.str "Mutex") (Json.str "")]
        ["Error calling OpenAI API: " ++ "boom"] :=
  clarify_upstream_failure_fallback (svcRaise "boom") "Mutex" (Json.str "") "boom"
    (by decide) rfl

/-- C5: on a successful completion-service call with content `c`, the
handler returns the content stripped of leading and trailing whitespace
as `explanation`. -/
theorem clarify_success_trimmed
    (svc : CompletionRequest → Except String String)
    (q c : String) (ctx : Json)
    (hq : q ≠ "")
    (hsvc : svc (completion_request (Json.str q) ctx) = Except.ok c) :
    clarify svc (Json.obj [("query", Json.str q), ("context", ctx)]) =
      HandlerResult.response 200
        (Json.obj [("explanation", Json.str (pyStrip c))])
        [completion_request (Json.str q) ctx] [] := by
  have ht : truthy (Json.str q) = true := by simp [truthy, hq]
  simp [clarify, dictGet, dictGetD, clarify_concept, hsvc, ht]

/-- Witness for C5: upstream content "  hi  " comes back as the trimmed
explanation "hi". -/
theorem clarify_success_trimmed_witness :
    clarify (svcConst "  hi  ")
        (Json.obj [("query", Json.str "Mutex"), ("context", Json.str "OS")]) =
      HandlerResult.response 200
        (Json.obj [("explanation", Json.str (pyStrip "  hi  "))])
        [completion_request (Json.str "Mutex") (Json.str "OS")] [] ∧
    pyStrip "  hi  " = "hi" :=
  ⟨clarify_success_trimmed (svcConst "  hi  ") "Mutex" "  hi  " (Json.str "OS")
    (by decide) rfl, rfl⟩

/-- C1 counterexample: with an upstream service that succeeds with the
empty string as content, the body with the non-empty string query
"Mutex" is answered by a 200 response whose `explanation` is the empty
string — so the handler does not always return a non-empty
`explanation` for non-empty queries. -/
theorem clarify_nonempty_explanation_cex :
    ¬ ∀ (e : String) (calls : List CompletionRequest) (log : List String),
        clarify (svcConst "") (Json.obj [("query", Json.str "Mutex")]) =
          HandlerResult.response 200
            (Json.obj [("explanation", Json.str e)]) calls log →
        e ≠ "" :=
  fun h =>
    h "" [completion_request (Json.str "Mutex") (Json.str "")] [] rfl rfl

/-- C1 (amended): for every JSON-object body whose `query` is a
non-empty string, the handler issues exactly one completion-service
call and returns a 200 response whose JSON body has an `explanation`
string; the explanation is non-empty unless the upstream call succeeded
with content that strips to the empty string. -/
theorem clarify_success_shape
    (svc : CompletionRequest → Except String String)
    (fields : List (String × Json)) (q : String)
    (hq1 : dictGet fields "query" = Json.str q) (hq2 : q ≠ "") :
    ∃ e log,
      clarify svc (Json.obj fields) =
        HandlerResult.response 200
          (Json.obj [("explanation", Json.str e)])
          [completion_request (Json.str q) (dictGetD fields "context" (Json.str ""))]
          log ∧
      (e ≠ "" ∨
        ∃ c, svc (completion_request (Json.str q)
                (dictGetD fields "context" (Json.str ""))) = Except.ok c ∧
          pyStrip c = "") := by
  have ht : truthy (Json.str q) = true := by simp [truthy, hq2]
  cases hsvc : svc (completion_request (Json.str q)
      (dictGetD fields "context" (Json.str ""))) with
  | ok c =>
      refine ⟨pyStrip c, [], ?_, ?_⟩
      · simp [clarify, hq1, ht, clarify_concept, hsvc]
      · by_cases hc : pyStrip c = ""
        · exact Or.inr ⟨c, rfl, hc⟩
        · exact Or.inl hc
  | error e0 =>
      refine ⟨fallback_message, ["Error calling OpenAI API: " ++ e0], ?_, ?_⟩
      · simp [clarify, hq1, ht, clarify_concept, hsvc]
      · exact Or.inl (by decide)

/-- Witness for the amended C1, at the query "Mutex" and a service that
succeeds with content "hi". -/
theorem clarify_success_shape_witness :
    ∃ e log,
      clarify (svcConst "hi") (Json.obj [("query", Json.str "Mutex")]) =
        HandlerResult.response 200
          (Json.obj [("explanation", Json.str e)])
          [completion_request (Json.str "Mutex")
            (dictGetD [("query", Json.str "Mutex")] "context" (Json.str ""))]
          log ∧
      (e ≠ "" ∨
        ∃ c, svcConst "hi" (completion_request (Json.str "Mutex")
                (dictGetD [("query", Json.str "Mutex")] "context" (Json.str ""))) =
              Except.ok c ∧
          pyStrip c = "") :=
  clarify_success_shape (svcConst "hi") [("query", Json.str "Mutex")] "Mutex"
    rfl (by decide)

/-- C4: when the context string is non-empty, the composed user
instruction is the query instruction with the literal context clause
appended after it; when the context is empty (or defaulted), the user
instruction is the bare query instruction with no context clause. -/
theorem user_message_context_clause (q ctx : String) :
    (ctx ≠ "" →
      user_message (Json.str q) (Json.str ctx) =
        "Explain the concept: '" ++ q ++ "'." ++
          " Please explain it in the context of '" ++ ctx ++ "'.") ∧
    user_message (Json.str q) (Json.str "") =
      "Explain the concept: '" ++ q ++ "'." := by
  constructor
  · intro h
    simp [user_message, truthy, pyStr, h]
  · rfl

/-- Witness for C4: with context "Operating Systems" the clause is
appended; with empty context the instruction is bare. -/
theorem user_message_context_clause_witness :
    user_message (Json.str "Mutex") (Json.str "Operating Systems") =
      "Explain the concept: '" ++ "Mutex" ++ "'." ++
        " Please explain it in the context of '" ++ "Operating Systems" ++ "'." ∧
    user_message (Json.str "Mutex") (Json.str "") =
      "Explain the concept: '" ++ "Mutex" ++ "'." :=
  ⟨(user_message_context_clause "Mutex" "Operating Systems").1 (by decide),
   (user_message_context_clause "Mutex" "").2⟩

/-- C6: for every JSON-object body, the handler produces a response
whose JSON body holds exactly one of the keys `explanation` and
`error` — never both and never neither. -/
theorem clarify_response_exactly_one_key
    (svc : CompletionRequest → Except String String)
    (fields : List (String × Json)) :
    one_of_explanation_error (clarify svc (Json.obj fields)) = true := by
  cases h : truthy (dictGet fields "query") <;>
    simp [clarify, h, one_of_explanation_error, hasKey]

/-- C7: when `OPENAI_API_KEY` is absent from the environment, startup
raises the descriptive fatal error (so no request is served); and
conversely, a startup that succeeds with key `k` implies the
environment held exactly that non-empty credential. -/
theorem startup_requires_api_key (env : String → Option String) :
    (env "OPENAI_API_KEY" = none →
      startup env = Except.error startup_error_message) ∧
    (∀ k, startup env = Except.ok k →
      env "OPENAI_API_KEY" = some k ∧ k ≠ "") := by
  constructor
  · intro h; simp [startup, h]
  · intro k hk
    cases h : env "OPENAI_API_KEY" with
    | none => simp [startup, h] at hk
    | some v =>
        simp only [startup, h] at hk
        by_cases hv : v = ""
        · rw [if_pos hv] at hk; cases hk
        · rw [if_neg hv] at hk
          cases hk
          exact ⟨rfl, hv⟩

/-- Witness for C7: an empty environment makes startup fail with the
descriptive message, and an environment holding "sk-test" lets startup
succeed with that key, which is then known present and non-empty. -/
theorem startup_requires_api_key_witness :
    startup (fun _ => none) = Except.error startup_error_message ∧
    ((fun _ => some "sk-test") "OPENAI_API_KEY" = some "sk-test" ∧
      "sk-test" ≠ "") :=
  ⟨(startup_requires_api_key (fun _ => none)).1 rfl,
   (startup_requires_api_key (fun _ => some "sk-test")).2 "sk-test" rfl⟩

/-- C8: every completion-service call made by `clarify_concept` is
exactly the request with model "gpt-3.5-turbo", the two-element message
list (the fixed system instruction, then the composed user
instruction), temperature 7/10 and max_tokens 300 — and exactly one
such call is made, for all inputs. -/
theorem clarify_concept_fixed_call
    (svc : CompletionRequest → Except String String) (q ctx : Json) :
    (clarify_concept svc q ctx).calls = [completion_request q ctx] ∧
    completion_request q ctx =
      { model := "gpt-3.5-turbo"
      , messages :=
          [ { role := "system", content := system_prompt }
          , { role := "user", content := user_message q ctx } ]
      , temperature := 7 / 10
      , max_tokens := 300 } := by
  refine ⟨?_, rfl⟩
  cases h : svc (completion_request q ctx) <;> simp [clarify_concept, h]

/-- C9: a body without a `context` key and a body whose `context` is
the empty string give the same handler outcome — same composed user
instruction, same completion call, same response — for every `query`
value. -/
theorem clarify_context_absent_eq_empty
    (svc : CompletionRequest → Except String String) (qv : Json) :
    clarify svc (Json.obj [("query", qv)]) =
      clarify svc (Json.obj [("query", qv), ("context", Json.str "")]) := rfl

/-- C10: the 400 InvalidRequest response is produced for every falsy
`query` value of a JSON-object body (missing, empty string, null,
false, 0, ...), with zero completion calls; while a body that is not a
JSON object at all makes the handler raise an unhandled exception on
`data.get` instead of returning 400. -/
theorem clarify_falsy_and_nonobject
    (svc : CompletionRequest → Except String String) :
    (∀ fields, truthy (dictGet fields "query") = false →
      clarify svc (Json.obj fields) =
        HandlerResult.response 400
          (Json.obj [("error", Json.str "Concept query is required.")]) [] []) ∧
    (∀ data, isObj data = false →
      clarify svc data = HandlerResult.exception "AttributeError") := by
  constructor
  · intro fields h
    simp [clarify, h]
  · intro data h
    cases data <;> simp_all [isObj, clarify]

/-- Witness for C10: the falsy query value 0 gets the 400 response, and
the array body raises the unhandled exception. -/
theorem clarify_falsy_and_nonobject_witness :
    clarify (svcConst "ok") (Json.obj [("query", Json.num 0)]) =
      HandlerResult.response 400
        (Json.obj [("error", Json.str "Concept query is required.")]) [] [] ∧
    clarify (svcConst "ok") (Json.arr []) =
      HandlerResult.exception "AttributeError" :=
  ⟨(clarify_falsy_and_nonobject (svcConst "ok")).1 [("query", Json.num 0)] rfl,
   (clarify_falsy_and_nonobject (svcConst "ok")).2 (Json.arr []) rfl⟩
